import Mathlib

/-!
Shallow embedding of the offset-resolution protocol of rust-chrono
(`src/offset/mod.rs` and `src/date.rs`): the `LocalResult` conversion-outcome
algebra, the `Offset`/`TimeZone` backend contract, and the zoned `Date`
wrapper, together with theorems checking the specification's claims.

The calendar-naive engine (NaiveDate / NaiveTime / NaiveDateTime and signed
Duration) is an external collaborator of the code under verification; it is
modelled as `Int` instants with `Int` duration arithmetic, and the naive
field constructors / mutators the code calls into are passed as explicit
function parameters, exactly where the source delegates to them.
-/

set_option autoImplicit false

namespace Chrono

/-- Modelled from the spec: the external signed duration type of the
calendar-naive engine, `a correct, total-ordering, add/subtract-with-duration
value type`; represented as an integer number of days. -/
abbrev Duration := Int

/-- Modelled from the spec: the external zone-independent calendar date
(`CanonicalInstant` for the date kind), totally ordered with duration
arithmetic; represented as an integer day number. -/
abbrev NaiveDate := Int

/-- Modelled from the spec: the external zone-independent time of day. -/
abbrev NaiveTime := Int

/-- Modelled from the spec: the external zone-independent combined
date-and-time value. -/
abbrev NaiveDateTime := Int

/-- Modelled from the spec: day of the week, consumed by the ISO-week-date
constructor (`from ISO-week/weekday`). -/
inductive Weekday : Type where
  | mon | tue | wed | thu | fri | sat | sun
deriving DecidableEq

/-- Modelled from the spec: the smallest representable naive date
(`out of representable range` boundary); the exact value is a representative
constant, only its role as the lower endpoint matters. -/
def naiveMinDate : NaiveDate := -(2 ^ 20)

/-- Modelled from the spec: the largest representable naive date. -/
def naiveMaxDate : NaiveDate := 2 ^ 20

/-- Modelled from the spec: the naive engine's checked successor,
`stepping past the maximum ... yields "no value" in checked form`. -/
def NaiveDate.succ_opt (d : NaiveDate) : Option NaiveDate :=
  if d < naiveMaxDate then some (d + 1) else none

/-- Modelled from the spec: the naive engine's checked predecessor,
`stepping past the ... minimum yields "no value" in checked form`. -/
def NaiveDate.pred_opt (d : NaiveDate) : Option NaiveDate :=
  if naiveMinDate < d then some (d - 1) else none

/-- `LocalResult` from `src/offset/mod.rs`: the conversion result from the
local time to the timezone-aware datetime types. -/
inductive LocalResult (α : Type) : Type where
  /-- Given local time representation is invalid (a gap). -/
  | None : LocalResult α
  /-- Given local time representation has a single unique result. -/
  | Single : α → LocalResult α
  /-- Given local time representation is ambiguous (a fold): min then max. -/
  | Ambiguous : α → α → LocalResult α
deriving DecidableEq

/-- `LocalResult::single`: `Some` only when the conversion result is unique. -/
def LocalResult.single {α : Type} : LocalResult α → Option α
  | .Single t => some t
  | _ => none

/-- `LocalResult::earliest`: the earliest possible conversion result. -/
def LocalResult.earliest {α : Type} : LocalResult α → Option α
  | .Single t => some t
  | .Ambiguous t _ => some t
  | .None => none

/-- `LocalResult::latest`: the latest possible conversion result. -/
def LocalResult.latest {α : Type} : LocalResult α → Option α
  | .Single t => some t
  | .Ambiguous _ t => some t
  | .None => none

/-- `LocalResult::map`: maps a `LocalResult<T>` into `LocalResult<U>`. -/
def LocalResult.map {α β : Type} (f : α → β) : LocalResult α → LocalResult β
  | .None => .None
  | .Single v => .Single (f v)
  | .Ambiguous vmin vmax => .Ambiguous (f vmin) (f vmax)

/-- The error signalled by `LocalResult::unwrap` (the source panics; the
panic message of the `Ambiguous` case reports both boundary values, so the
error value carries both). -/
inductive ChronoError (α : Type) : Type where
  | noSuchLocalTime : ChronoError α
  | ambiguousLocalTime : α → α → ChronoError α
deriving DecidableEq

/-- `LocalResult::unwrap`: returns the single unique conversion result, or
fails accordingly (panic modelled as `Except.error`). -/
def LocalResult.unwrap {α : Type} : LocalResult α → Except (ChronoError α) α
  | .None => .error .noSuchLocalTime
  | .Single t => .ok t
  | .Ambiguous t1 t2 => .error (.ambiguousLocalTime t1 t2)

/-- The `Offset`/`OffsetState` split of `src/offset/mod.rs`: an offset state
exposes its skew `local_minus_utc`. -/
class OffsetState (α : Type) : Type where
  local_minus_utc : α → Duration

/-- The required primitives of the zone-backend trait (`Offset` in
`src/offset/mod.rs`, `TimeZone` as used by `src/date.rs`), as a structure of
functions over the offset-state type `α`. -/
structure TimeZone (α : Type) : Type where
  state_from_local_date : NaiveDate → LocalResult α
  state_from_local_time : NaiveTime → LocalResult α
  state_from_local_datetime : NaiveDateTime → LocalResult α
  state_from_utc_date : NaiveDate → α
  state_from_utc_time : NaiveTime → α
  state_from_utc_datetime : NaiveDateTime → α

/-- `Date<Tz>` from `src/date.rs`: an ISO 8601 calendar date with time zone,
storing the UTC naive date and the resolved offset state. -/
structure Date (α : Type) : Type where
  date : NaiveDate
  offset : α
deriving DecidableEq

/-- Modelled from the spec: the zoned `Time` wrapper of the missing
`src/time.rs`, holding `(instant, offset)` exactly like the other wrappers. -/
structure Time (α : Type) : Type where
  time : NaiveTime
  offset : α
deriving DecidableEq

/-- Modelled from the spec: the zoned `DateTime` wrapper of the missing
`src/datetime.rs`, holding `(instant, offset)`. -/
structure DateTime (α : Type) : Type where
  datetime : NaiveDateTime
  offset : α
deriving DecidableEq

/-- `Date::from_utc`: makes a new `Date` with given UTC date and offset. -/
def Date.from_utc {α : Type} (date : NaiveDate) (offset : α) : Date α :=
  ⟨date, offset⟩

/-- Modelled from the spec: `Time::from_utc`, the missing counterpart of
`Date::from_utc` called by `Offset::from_local_time`. -/
def Time.from_utc {α : Type} (time : NaiveTime) (offset : α) : Time α :=
  ⟨time, offset⟩

/-- Modelled from the spec: `DateTime::from_utc`, the missing counterpart of
`Date::from_utc` called by `Offset::from_local_datetime`. -/
def DateTime.from_utc {α : Type} (datetime : NaiveDateTime) (offset : α) :
    DateTime α :=
  ⟨datetime, offset⟩

/-- `Date::naive_utc`: a view to the naive UTC date. -/
def Date.naive_utc {α : Type} (d : Date α) : NaiveDate := d.date

/-- `Date::naive_local`: `self.date + self.offset.local_minus_utc()`. -/
def Date.naive_local {α : Type} [OffsetState α] (d : Date α) : NaiveDate :=
  d.date + OffsetState.local_minus_utc d.offset

/-- `Offset::from_local_date`: converts the local `NaiveDate` to the
timezone-aware `Date` if possible. -/
def TimeZone.from_local_date {α : Type} [OffsetState α] (tz : TimeZone α)
    (lv : NaiveDate) : LocalResult (Date α) :=
  (tz.state_from_local_date lv).map (fun state =>
    Date.from_utc (lv - OffsetState.local_minus_utc state) state)

/-- `Offset::from_local_time`: converts the local `NaiveTime` to the
timezone-aware `Time` if possible. -/
def TimeZone.from_local_time {α : Type} [OffsetState α] (tz : TimeZone α)
    (lv : NaiveTime) : LocalResult (Time α) :=
  (tz.state_from_local_time lv).map (fun state =>
    Time.from_utc (lv - OffsetState.local_minus_utc state) state)

/-- `Offset::from_local_datetime`: converts the local `NaiveDateTime` to the
timezone-aware `DateTime` if possible. -/
def TimeZone.from_local_datetime {α : Type} [OffsetState α] (tz : TimeZone α)
    (lv : NaiveDateTime) : LocalResult (DateTime α) :=
  (tz.state_from_local_datetime lv).map (fun state =>
    DateTime.from_utc (lv - OffsetState.local_minus_utc state) state)

/-- `Offset::from_utc_date`: converts the UTC `NaiveDate` to the local time;
the UTC is continuous and thus this cannot fail. -/
def TimeZone.from_utc_date {α : Type} (tz : TimeZone α) (utc : NaiveDate) :
    Date α :=
  Date.from_utc utc (tz.state_from_utc_date utc)

/-- `Offset::from_utc_time`: converts the UTC `NaiveTime` to the local time. -/
def TimeZone.from_utc_time {α : Type} (tz : TimeZone α) (utc : NaiveTime) :
    Time α :=
  Time.from_utc utc (tz.state_from_utc_time utc)

/-- `Offset::from_utc_datetime`: converts the UTC `NaiveDateTime` to the
local time. -/
def TimeZone.from_utc_datetime {α : Type} (tz : TimeZone α)
    (utc : NaiveDateTime) : DateTime α :=
  DateTime.from_utc utc (tz.state_from_utc_datetime utc)

/-- `Offset::ymd_opt`: validates through the naive engine's
`NaiveDate::from_ymd_opt` (passed as the parameter `from_ymd_opt`), then
resolves through `from_local_date`; `None` on invalid fields. -/
def TimeZone.ymd_opt {α : Type} [OffsetState α] (tz : TimeZone α)
    (from_ymd_opt : Int → Nat → Nat → Option NaiveDate)
    (year : Int) (month day : Nat) : LocalResult (Date α) :=
  match from_ymd_opt year month day with
  | some d => tz.from_local_date d
  | none => .None

/-- `Offset::yo_opt`: validates through `NaiveDate::from_yo_opt`, then
resolves through `from_local_date`. -/
def TimeZone.yo_opt {α : Type} [OffsetState α] (tz : TimeZone α)
    (from_yo_opt : Int → Nat → Option NaiveDate)
    (year : Int) (ordinal : Nat) : LocalResult (Date α) :=
  match from_yo_opt year ordinal with
  | some d => tz.from_local_date d
  | none => .None

/-- `Offset::isoywd_opt`: validates through `NaiveDate::from_isoywd_opt`,
then resolves through `from_local_date`. -/
def TimeZone.isoywd_opt {α : Type} [OffsetState α] (tz : TimeZone α)
    (from_isoywd_opt : Int → Nat → Weekday → Option NaiveDate)
    (year : Int) (week : Nat) (weekday : Weekday) : LocalResult (Date α) :=
  match from_isoywd_opt year week weekday with
  | some d => tz.from_local_date d
  | none => .None

/-- `Offset::hms_opt`: validates through `NaiveTime::from_hms_opt`, then
resolves through `from_local_time`. -/
def TimeZone.hms_opt {α : Type} [OffsetState α] (tz : TimeZone α)
    (from_hms_opt : Nat → Nat → Nat → Option NaiveTime)
    (hour minute sec : Nat) : LocalResult (Time α) :=
  match from_hms_opt hour minute sec with
  | some t => tz.from_local_time t
  | none => .None

/-- `Offset::hms_milli_opt`: validates through `NaiveTime::from_hms_milli_opt`
(the millisecond part may exceed 1,000 for a leap second), then resolves
through `from_local_time`. -/
def TimeZone.hms_milli_opt {α : Type} [OffsetState α] (tz : TimeZone α)
    (from_hms_milli_opt : Nat → Nat → Nat → Nat → Option NaiveTime)
    (hour minute sec milli : Nat) : LocalResult (Time α) :=
  match from_hms_milli_opt hour minute sec milli with
  | some t => tz.from_local_time t
  | none => .None

/-- `Offset::hms_micro_opt`: validates through `NaiveTime::from_hms_micro_opt`,
then resolves through `from_local_time`. -/
def TimeZone.hms_micro_opt {α : Type} [OffsetState α] (tz : TimeZone α)
    (from_hms_micro_opt : Nat → Nat → Nat → Nat → Option NaiveTime)
    (hour minute sec micro : Nat) : LocalResult (Time α) :=
  match from_hms_micro_opt hour minute sec micro with
  | some t => tz.from_local_time t
  | none => .None

/-- `Offset::hms_nano_opt`: validates through `NaiveTime::from_hms_nano_opt`,
then resolves through `from_local_time`. -/
def TimeZone.hms_nano_opt {α : Type} [OffsetState α] (tz : TimeZone α)
    (from_hms_nano_opt : Nat → Nat → Nat → Nat → Option NaiveTime)
    (hour minute sec nano : Nat) : LocalResult (Time α) :=
  match from_hms_nano_opt hour minute sec nano with
  | some t => tz.from_local_time t
  | none => .None

/-- `Date::timezone`: `TimeZone::from_offset(&self.offset)`; the
reconstruction function of the backend from a state (`from_offset`) is the
parameter. -/
def Date.timezone {α : Type} (from_offset : α → TimeZone α) (d : Date α) :
    TimeZone α :=
  from_offset d.offset

/-- `Date::and_time`: combines the derived local date with a `NaiveTime`
through the naive engine's `NaiveDate::and_time` (parameter
`naive_and_time`), re-resolves through the reconstructed backend, and keeps
only the `single()` projection. -/
def Date.and_time {α : Type} [OffsetState α] (from_offset : α → TimeZone α)
    (naive_and_time : NaiveDate → NaiveTime → NaiveDateTime)
    (d : Date α) (time : NaiveTime) : Option (DateTime α) :=
  let localdt := naive_and_time d.naive_local time
  ((d.timezone from_offset).from_local_datetime localdt).single

/-- `Date::and_hms_opt`: validates the time through
`NaiveTime::from_hms_opt`, then chains into `and_time`. -/
def Date.and_hms_opt {α : Type} [OffsetState α] (from_offset : α → TimeZone α)
    (naive_and_time : NaiveDate → NaiveTime → NaiveDateTime)
    (from_hms_opt : Nat → Nat → Nat → Option NaiveTime)
    (d : Date α) (hour minute sec : Nat) : Option (DateTime α) :=
  (from_hms_opt hour minute sec).bind (fun time =>
    d.and_time from_offset naive_and_time time)

/-- `Date::and_hms_milli_opt`: validates through
`NaiveTime::from_hms_milli_opt`, then chains into `and_time`. -/
def Date.and_hms_milli_opt {α : Type} [OffsetState α]
    (from_offset : α → TimeZone α)
    (naive_and_time : NaiveDate → NaiveTime → NaiveDateTime)
    (from_hms_milli_opt : Nat → Nat → Nat → Nat → Option NaiveTime)
    (d : Date α) (hour minute sec milli : Nat) : Option (DateTime α) :=
  (from_hms_milli_opt hour minute sec milli).bind (fun time =>
    d.and_time from_offset naive_and_time time)

/-- `Date::and_hms_micro_opt`: validates through
`NaiveTime::from_hms_micro_opt`, then chains into `and_time`. -/
def Date.and_hms_micro_opt {α : Type} [OffsetState α]
    (from_offset : α → TimeZone α)
    (naive_and_time : NaiveDate → NaiveTime → NaiveDateTime)
    (from_hms_micro_opt : Nat → Nat → Nat → Nat → Option NaiveTime)
    (d : Date α) (hour minute sec micro : Nat) : Option (DateTime α) :=
  (from_hms_micro_opt hour minute sec micro).bind (fun time =>
    d.and_time from_offset naive_and_time time)

/-- `Date::and_hms_nano_opt`: validates through
`NaiveTime::from_hms_nano_opt`, then chains into `and_time`. -/
def Date.and_hms_nano_opt {α : Type} [OffsetState α]
    (from_offset : α → TimeZone α)
    (naive_and_time : NaiveDate → NaiveTime → NaiveDateTime)
    (from_hms_nano_opt : Nat → Nat → Nat → Nat → Option NaiveTime)
    (d : Date α) (hour minute sec nano : Nat) : Option (DateTime α) :=
  (from_hms_nano_opt hour minute sec nano).bind (fun time =>
    d.and_time from_offset naive_and_time time)

/-- `LocalResult::<Date>::and_time`: propagates any error; an ambiguous
outer result is discarded; a failing inner combination yields `None`. -/
def LocalResult.and_time {α : Type} [OffsetState α]
    (from_offset : α → TimeZone α)
    (naive_and_time : NaiveDate → NaiveTime → NaiveDateTime)
    (lr : LocalResult (Date α)) (time : NaiveTime) :
    LocalResult (DateTime α) :=
  match lr with
  | .Single d =>
    match d.and_time from_offset naive_and_time time with
    | some dt => .Single dt
    | none => .None
  | _ => .None

/-- `LocalResult::<Date>::and_hms_opt`: like `and_time`, through
`Date::and_hms_opt`. -/
def LocalResult.and_hms_opt {α : Type} [OffsetState α]
    (from_offset : α → TimeZone α)
    (naive_and_time : NaiveDate → NaiveTime → NaiveDateTime)
    (from_hms_opt : Nat → Nat → Nat → Option NaiveTime)
    (lr : LocalResult (Date α)) (hour minute sec : Nat) :
    LocalResult (DateTime α) :=
  match lr with
  | .Single d =>
    match d.and_hms_opt from_offset naive_and_time from_hms_opt
        hour minute sec with
    | some dt => .Single dt
    | none => .None
  | _ => .None

/-- `LocalResult::<Date>::and_hms_milli_opt`: like `and_time`, through
`Date::and_hms_milli_opt`. -/
def LocalResult.and_hms_milli_opt {α : Type} [OffsetState α]
    (from_offset : α → TimeZone α)
    (naive_and_time : NaiveDate → NaiveTime → NaiveDateTime)
    (from_hms_milli_opt : Nat → Nat → Nat → Nat → Option NaiveTime)
    (lr : LocalResult (Date α)) (hour minute sec milli : Nat) :
    LocalResult (DateTime α) :=
  match lr with
  | .Single d =>
    match d.and_hms_milli_opt from_offset naive_and_time from_hms_milli_opt
        hour minute sec milli with
    | some dt => .Single dt
    | none => .None
  | _ => .None

/-- `LocalResult::<Date>::and_hms_micro_opt`: like `and_time`, through
`Date::and_hms_micro_opt`. -/
def LocalResult.and_hms_micro_opt {α : Type} [OffsetState α]
    (from_offset : α → TimeZone α)
    (naive_and_time : NaiveDate → NaiveTime → NaiveDateTime)
    (from_hms_micro_opt : Nat → Nat → Nat → Nat → Option NaiveTime)
    (lr : LocalResult (Date α)) (hour minute sec micro : Nat) :
    LocalResult (DateTime α) :=
  match lr with
  | .Single d =>
    match d.and_hms_micro_opt from_offset naive_and_time from_hms_micro_opt
        hour minute sec micro with
    | some dt => .Single dt
    | none => .None
  | _ => .None

/-- `LocalResult::<Date>::and_hms_nano_opt`: like `and_time`, through
`Date::and_hms_nano_opt`. -/
def LocalResult.and_hms_nano_opt {α : Type} [OffsetState α]
    (from_offset : α → TimeZone α)
    (naive_and_time : NaiveDate → NaiveTime → NaiveDateTime)
    (from_hms_nano_opt : Nat → Nat → Nat → Nat → Option NaiveTime)
    (lr : LocalResult (Date α)) (hour minute sec nano : Nat) :
    LocalResult (DateTime α) :=
  match lr with
  | .Single d =>
    match d.and_hms_nano_opt from_offset naive_and_time from_hms_nano_opt
        hour minute sec nano with
    | some dt => .Single dt
    | none => .None
  | _ => .None

/-- `Date::succ_opt`: next date, same offset state, `None` past the last
representable date. -/
def Date.succ_opt {α : Type} (d : Date α) : Option (Date α) :=
  (NaiveDate.succ_opt d.date).map (fun date => Date.from_utc date d.offset)

/-- `Date::pred_opt`: prior date, same offset state, `None` past the first
representable date. -/
def Date.pred_opt {α : Type} (d : Date α) : Option (Date α) :=
  (NaiveDate.pred_opt d.date).map (fun date => Date.from_utc date d.offset)

/-- `Date::with_timezone`: changes the associated time zone via the other
backend's total `from_utc_date`. -/
def Date.with_timezone {α β : Type} (d : Date α) (tz : TimeZone β) : Date β :=
  tz.from_utc_date d.date

/-- `map_local` from `src/date.rs`: maps the local date with the given
conversion function, then re-resolves through the reconstructed backend and
keeps only the `single()` projection. -/
def map_local {α : Type} [OffsetState α] (from_offset : α → TimeZone α)
    (d : Date α) (f : NaiveDate → Option NaiveDate) : Option (Date α) :=
  (f d.naive_local).bind (fun date =>
    ((d.timezone from_offset).from_local_date date).single)

/-- `Datelike::with_year` for `Date`: mutates the local view through the
naive engine's `with_year` (parameter `naive_with_year`), via `map_local`. -/
def Date.with_year {α : Type} [OffsetState α] (from_offset : α → TimeZone α)
    (naive_with_year : NaiveDate → Int → Option NaiveDate)
    (d : Date α) (year : Int) : Option (Date α) :=
  map_local from_offset d (fun date => naive_with_year date year)

/-- `Datelike::with_month` for `Date`, via `map_local`. -/
def Date.with_month {α : Type} [OffsetState α] (from_offset : α → TimeZone α)
    (naive_with_month : NaiveDate → Nat → Option NaiveDate)
    (d : Date α) (month : Nat) : Option (Date α) :=
  map_local from_offset d (fun date => naive_with_month date month)

/-- `Datelike::with_month0` for `Date`, via `map_local`. -/
def Date.with_month0 {α : Type} [OffsetState α] (from_offset : α → TimeZone α)
    (naive_with_month0 : NaiveDate → Nat → Option NaiveDate)
    (d : Date α) (month0 : Nat) : Option (Date α) :=
  map_local from_offset d (fun date => naive_with_month0 date month0)

/-- `Datelike::with_day` for `Date`, via `map_local`. -/
def Date.with_day {α : Type} [OffsetState α] (from_offset : α → TimeZone α)
    (naive_with_day : NaiveDate → Nat → Option NaiveDate)
    (d : Date α) (day : Nat) : Option (Date α) :=
  map_local from_offset d (fun date => naive_with_day date day)

/-- `Datelike::with_day0` for `Date`, via `map_local`. -/
def Date.with_day0 {α : Type} [OffsetState α] (from_offset : α → TimeZone α)
    (naive_with_day0 : NaiveDate → Nat → Option NaiveDate)
    (d : Date α) (day0 : Nat) : Option (Date α) :=
  map_local from_offset d (fun date => naive_with_day0 date day0)

/-- `Datelike::with_ordinal` for `Date`, via `map_local`. -/
def Date.with_ordinal {α : Type} [OffsetState α] (from_offset : α → TimeZone α)
    (naive_with_ordinal : NaiveDate → Nat → Option NaiveDate)
    (d : Date α) (ordinal : Nat) : Option (Date α) :=
  map_local from_offset d (fun date => naive_with_ordinal date ordinal)

/-- `Datelike::with_ordinal0` for `Date`, via `map_local`. -/
def Date.with_ordinal0 {α : Type} [OffsetState α]
    (from_offset : α → TimeZone α)
    (naive_with_ordinal0 : NaiveDate → Nat → Option NaiveDate)
    (d : Date α) (ordinal0 : Nat) : Option (Date α) :=
  map_local from_offset d (fun date => naive_with_ordinal0 date ordinal0)

/-- `PartialEq<Date<Tz2>> for Date<Tz>`: equality across possibly different
zone backends compares the stored UTC naive dates only. -/
def Date.eq {α β : Type} (d : Date α) (other : Date β) : Bool :=
  d.date == other.date

/-- `Ord for Date`: ordering compares the stored UTC naive dates only. -/
def Date.cmp {α : Type} (d other : Date α) : Ordering :=
  compare d.date other.date

/-- `Add<Duration> for Date`: shifts the stored UTC date, keeps the offset. -/
def Date.add {α : Type} (d : Date α) (rhs : Duration) : Date α :=
  ⟨d.date + rhs, d.offset⟩

/-- `Sub<Date<Tz2>> for Date<Tz>`: the difference of the stored UTC dates,
as a plain duration. -/
def Date.sub {α β : Type} (d : Date α) (rhs : Date β) : Duration :=
  d.date - rhs.date

/-- `Sub<Duration> for Date`: defined as `self.add(-rhs)`. -/
def Date.sub_duration {α : Type} (d : Date α) (rhs : Duration) : Date α :=
  d.add (-rhs)

/- Concrete witness backends, mirroring the `UTC1y`/`OneYear` fixture of the
source's test module: a zone whose fixed local-minus-UTC skew is 365 days and
which resolves every local value as `Single`. -/

/-- The `OneYear` offset state of the source's test module. -/
structure OneYear : Type where
deriving DecidableEq

instance : OffsetState OneYear := ⟨fun _ => (365 : Int)⟩

/-- The `UTC1y` test zone: every local value resolves to `Single OneYear`. -/
def UTC1y : TimeZone OneYear where
  state_from_local_date := fun _ => .Single ⟨⟩
  state_from_local_time := fun _ => .Single ⟨⟩
  state_from_local_datetime := fun _ => .Single ⟨⟩
  state_from_utc_date := fun _ => ⟨⟩
  state_from_utc_time := fun _ => ⟨⟩
  state_from_utc_datetime := fun _ => ⟨⟩

/-- `TimeZone::from_offset` for the `UTC1y` fixture. -/
def UTC1y.from_offset : OneYear → TimeZone OneYear := fun _ => UTC1y

/-- A gap-and-fold test zone over `Int` offset states: local value 0 is a
gap, local value 1 is a fold, everything else resolves uniquely with zero
skew. -/
def GapFoldZone : TimeZone Int where
  state_from_local_date := fun d =>
    if d = 0 then .None else if d = 1 then .Ambiguous 0 0 else .Single 0
  state_from_local_time := fun _ => .Single 0
  state_from_local_datetime := fun dt =>
    if dt = 0 then .None else if dt = 1 then .Ambiguous 0 0 else .Single 0
  state_from_utc_date := fun _ => 0
  state_from_utc_time := fun _ => 0
  state_from_utc_datetime := fun _ => 0

instance : OffsetState Int := ⟨fun s => s⟩

/-- `TimeZone::from_offset` for the `GapFoldZone` fixture. -/
def GapFoldZone.from_offset : Int → TimeZone Int := fun _ => GapFoldZone

/-! ## Shared helper lemmas -/

/-- The `single()` projection succeeds exactly on the `Single` variant. -/
theorem single_eq_some_iff {α : Type} (lr : LocalResult α) (t : α) :
    lr.single = some t ↔ lr = .Single t := by
  cases lr <;> simp [LocalResult.single]

/-- An `Ambiguous` outcome of `from_local_date` can only come from an
`Ambiguous` outcome of the backend's `state_from_local_date`. -/
theorem from_local_date_ambiguous_state {α : Type} [OffsetState α]
    (tz : TimeZone α) (nd : NaiveDate) (d1 d2 : Date α) :
    tz.from_local_date nd = .Ambiguous d1 d2 →
      ∃ s1 s2, tz.state_from_local_date nd = .Ambiguous s1 s2 := by
  unfold TimeZone.from_local_date
  cases h : tz.state_from_local_date nd <;> intro hm <;>
    simp [LocalResult.map] at hm
  exact ⟨_, _, rfl⟩

/-- An `Ambiguous` outcome of `from_local_time` can only come from an
`Ambiguous` outcome of the backend's `state_from_local_time`. -/
theorem from_local_time_ambiguous_state {α : Type} [OffsetState α]
    (tz : TimeZone α) (nt : NaiveTime) (t1 t2 : Time α) :
    tz.from_local_time nt = .Ambiguous t1 t2 →
      ∃ s1 s2, tz.state_from_local_time nt = .Ambiguous s1 s2 := by
  unfold TimeZone.from_local_time
  cases h : tz.state_from_local_time nt <;> intro hm <;>
    simp [LocalResult.map] at hm
  exact ⟨_, _, rfl⟩

/-! ## Claim theorems -/

/-- C1: Equality between zoned `Date` values, possibly under different zone
backends, holds iff their canonical (UTC) naive dates are equal, and the
ordering of two zoned dates is the ordering of their canonical naive dates;
neither consults the offset or the displayed local fields. -/
theorem date_eq_cmp_canonical_instant {α β : Type} (a : Date α) (b : Date β) :
    (Date.eq a b = true ↔ a.naive_utc = b.naive_utc) ∧
    (∀ c : Date α, Date.cmp a c = compare a.naive_utc c.naive_utc) := by
  refine ⟨?_, fun c => rfl⟩
  simp [Date.eq, Date.naive_utc]

/-- C2: the conversion-outcome accessors: `single` yields the value exactly
on `Single`; `earliest`/`latest` yield the value on `Single` and the min/max
on `Ambiguous` and nothing on `None`; `map f` preserves the variant shape,
sending `None` to `None`, `Single t` to `Single (f t)` and
`Ambiguous a b` to `Ambiguous (f a) (f b)`. -/
theorem localResult_accessors {α β : Type} (t a b : α) (f : α → β) :
    (LocalResult.single (LocalResult.Single t) = some t) ∧
    (LocalResult.single (LocalResult.None : LocalResult α) = none) ∧
    (LocalResult.single (LocalResult.Ambiguous a b) = none) ∧
    (LocalResult.earliest (LocalResult.Single t) = some t) ∧
    (LocalResult.earliest (LocalResult.Ambiguous a b) = some a) ∧
    (LocalResult.earliest (LocalResult.None : LocalResult α) = none) ∧
    (LocalResult.latest (LocalResult.Single t) = some t) ∧
    (LocalResult.latest (LocalResult.Ambiguous a b) = some b) ∧
    (LocalResult.latest (LocalResult.None : LocalResult α) = none) ∧
    (LocalResult.map f (LocalResult.None : LocalResult α) = .None) ∧
    (LocalResult.map f (LocalResult.Single t) = .Single (f t)) ∧
    (LocalResult.map f (LocalResult.Ambiguous a b) = .Ambiguous (f a) (f b)) :=
  ⟨rfl, rfl, rfl, rfl, rfl, rfl, rfl, rfl, rfl, rfl, rfl, rfl⟩

/-- C5: re-targeting a zoned date to another backend keeps the canonical
instant unchanged; the new value is exactly the other backend's total
`from_utc_date` resolution, whose offset comes from `state_from_utc_date`. -/
theorem with_timezone_preserves_instant {α β : Type} (d : Date α)
    (tz : TimeZone β) :
    ((d.with_timezone tz).naive_utc = d.naive_utc) ∧
    ((d.with_timezone tz).offset = tz.state_from_utc_date d.naive_utc) ∧
    (d.with_timezone tz = tz.from_utc_date d.naive_utc) :=
  ⟨rfl, rfl, rfl⟩

/-- C8: `unwrap` returns the value for `Single`, signals a "no such local
time" error for `None`, and for `Ambiguous` signals an "ambiguous local
time" error carrying both boundary values. -/
theorem localResult_unwrap_spec {α : Type} (t t1 t2 : α) :
    (LocalResult.unwrap (LocalResult.Single t) = Except.ok t) ∧
    (LocalResult.unwrap (LocalResult.None : LocalResult α) =
      Except.error ChronoError.noSuchLocalTime) ∧
    (LocalResult.unwrap (LocalResult.Ambiguous t1 t2) =
      Except.error (ChronoError.ambiguousLocalTime t1 t2)) :=
  ⟨rfl, rfl, rfl⟩

/-- C9: duration arithmetic and cross-backend subtraction operate on
canonical instants only: adding a duration shifts the canonical naive date
and keeps the offset; subtracting a duration is adding its negation;
subtracting two zoned dates under possibly different backends is the plain
difference of their canonical naive dates, independent of either offset. -/
theorem date_arithmetic_canonical {α β : Type} (d d1 : Date α) (d2 : Date β)
    (r : Duration) :
    ((d.add r).naive_utc = d.naive_utc + r) ∧
    ((d.add r).offset = d.offset) ∧
    (d.sub_duration r = d.add (-r)) ∧
    ((d.sub_duration r).naive_utc = d.naive_utc - r) ∧
    (d1.sub d2 = d1.naive_utc - d2.naive_utc) := by
  refine ⟨rfl, rfl, rfl, ?_, rfl⟩
  simp [Date.sub_duration, Date.add, Date.naive_utc, sub_eq_add_neg]

/-- C10: local round-trip at construction: any zoned date contained in the
outcome of `from_local_date lv` — the `Single` value or either member of an
`Ambiguous` pair — has `naive_local` equal to `lv`, and `naive_utc` equal to
`lv` minus the resolved state's `local_minus_utc`. -/
theorem from_local_date_roundtrip {α : Type} [OffsetState α] (tz : TimeZone α)
    (lv : NaiveDate) :
    (∀ d : Date α, tz.from_local_date lv = .Single d →
      d.naive_local = lv ∧
      d.naive_utc = lv - OffsetState.local_minus_utc d.offset) ∧
    (∀ d1 d2 : Date α, tz.from_local_date lv = .Ambiguous d1 d2 →
      (d1.naive_local = lv ∧
        d1.naive_utc = lv - OffsetState.local_minus_utc d1.offset) ∧
      (d2.naive_local = lv ∧
        d2.naive_utc = lv - OffsetState.local_minus_utc d2.offset)) := by
  unfold TimeZone.from_local_date
  cases h : tz.state_from_local_date lv <;>
    simp [LocalResult.map, Date.from_utc] <;>
    simp_all [Date.naive_local, Date.naive_utc, Date.from_utc]

/-- C10 witness: the round-trip evaluated on the `UTC1y` fixture at local
day 5: the single resolved date has local view 5 and UTC view 5 - 365. -/
theorem from_local_date_roundtrip_witness :
    (Date.mk (5 - 365) OneYear.mk).naive_local = (5 : NaiveDate) ∧
    (Date.mk (5 - 365) OneYear.mk).naive_utc =
      (5 : NaiveDate) - OffsetState.local_minus_utc OneYear.mk :=
  (from_local_date_roundtrip UTC1y 5).1 (Date.mk (5 - 365) OneYear.mk) rfl

/-- C6: for any representable zoned date not at the maximum,
`succ` then `pred` is the identity; for any not at the minimum, `pred` then
`succ` is the identity; and the checked forms return `None` exactly at the
last/first representable date. -/
theorem succ_pred_inverse {α : Type} (d : Date α)
    (hmin : naiveMinDate ≤ d.date) (hmax : d.date ≤ naiveMaxDate) :
    (d.succ_opt = none ↔ d.date = naiveMaxDate) ∧
    (d.pred_opt = none ↔ d.date = naiveMinDate) ∧
    (d.date ≠ naiveMaxDate →
      ∃ d', d.succ_opt = some d' ∧ d'.pred_opt = some d) ∧
    (d.date ≠ naiveMinDate →
      ∃ d', d.pred_opt = some d' ∧ d'.succ_opt = some d) := by
  obtain ⟨dd, off⟩ := d
  simp only [Date.succ_opt, Date.pred_opt, NaiveDate.succ_opt,
    NaiveDate.pred_opt, Date.from_utc] at *
  refine ⟨?_, ?_, ?_, ?_⟩
  · constructor
    · intro h
      by_contra hne
      have : dd < naiveMaxDate := lt_of_le_of_ne hmax hne
      simp [this] at h
    · intro h; simp [h]
  · constructor
    · intro h
      by_contra hne
      have : naiveMinDate < dd := lt_of_le_of_ne hmin (Ne.symm hne)
      simp [this] at h
    · intro h; simp [h]
  · intro hne
    have hlt : dd < naiveMaxDate := lt_of_le_of_ne hmax hne
    refine ⟨⟨dd + 1, off⟩, by simp [hlt], ?_⟩
    have : naiveMinDate < dd + 1 := lt_of_le_of_lt hmin (lt_add_one dd)
    simp [this]
  · intro hne
    have hlt : naiveMinDate < dd := lt_of_le_of_ne hmin (Ne.symm hne)
    refine ⟨⟨dd - 1, off⟩, by simp [hlt], ?_⟩
    have : dd - 1 < naiveMaxDate := lt_of_lt_of_le (sub_one_lt dd) hmax
    simp [this]

/-- C6 witness: the successor/predecessor laws evaluated at the concrete
zoned date with UTC day 0 and integer offset state 0. -/
theorem succ_pred_inverse_witness :
    ((⟨0, 0⟩ : Date Int).succ_opt = none ↔ (0 : NaiveDate) = naiveMaxDate) ∧
    ((⟨0, 0⟩ : Date Int).pred_opt = none ↔ (0 : NaiveDate) = naiveMinDate) ∧
    ((0 : NaiveDate) ≠ naiveMaxDate → ∃ d',
      (⟨0, 0⟩ : Date Int).succ_opt = some d' ∧
      d'.pred_opt = some (⟨0, 0⟩ : Date Int)) ∧
    ((0 : NaiveDate) ≠ naiveMinDate → ∃ d',
      (⟨0, 0⟩ : Date Int).pred_opt = some d' ∧
      d'.succ_opt = some (⟨0, 0⟩ : Date Int)) :=
  succ_pred_inverse (⟨0, 0⟩ : Date Int) (by decide) (by decide)

/-- `map_local` succeeds exactly when the naive mutation succeeds and the
reconstructed backend resolves the mutated local date as `Single`. -/
theorem map_local_eq_some_iff {α : Type} [OffsetState α]
    (fo : α → TimeZone α) (d : Date α) (f : NaiveDate → Option NaiveDate)
    (d' : Date α) :
    map_local fo d f = some d' ↔
      ∃ nd, f d.naive_local = some nd ∧
        (fo d.offset).from_local_date nd = .Single d' := by
  simp [map_local, Date.timezone, Option.bind_eq_some, single_eq_some_iff]

/-- C7: each field-mutation operation mutates the derived local view, then
re-resolves through the owning backend, returning `some` exactly when the
naive mutation succeeds and the backend resolves the result as `Single`;
and (last conjunct, which covers all of them through `map_local`) a failing
naive mutation, or a `None`/`Ambiguous` re-resolution, yields no value. -/
theorem with_field_single_only {α : Type} [OffsetState α]
    (fo : α → TimeZone α)
    (nwy : NaiveDate → Int → Option NaiveDate)
    (nwm nwm0 nwd nwd0 nwo nwo0 : NaiveDate → Nat → Option NaiveDate)
    (d : Date α) (y : Int) (n : Nat) (d' : Date α) :
    (d.with_year fo nwy y = some d' ↔
      ∃ nd, nwy d.naive_local y = some nd ∧
        (fo d.offset).from_local_date nd = .Single d') ∧
    (d.with_month fo nwm n = some d' ↔
      ∃ nd, nwm d.naive_local n = some nd ∧
        (fo d.offset).from_local_date nd = .Single d') ∧
    (d.with_month0 fo nwm0 n = some d' ↔
      ∃ nd, nwm0 d.naive_local n = some nd ∧
        (fo d.offset).from_local_date nd = .Single d') ∧
    (d.with_day fo nwd n = some d' ↔
      ∃ nd, nwd d.naive_local n = some nd ∧
        (fo d.offset).from_local_date nd = .Single d') ∧
    (d.with_day0 fo nwd0 n = some d' ↔
      ∃ nd, nwd0 d.naive_local n = some nd ∧
        (fo d.offset).from_local_date nd = .Single d') ∧
    (d.with_ordinal fo nwo n = some d' ↔
      ∃ nd, nwo d.naive_local n = some nd ∧
        (fo d.offset).from_local_date nd = .Single d') ∧
    (d.with_ordinal0 fo nwo0 n = some d' ↔
      ∃ nd, nwo0 d.naive_local n = some nd ∧
        (fo d.offset).from_local_date nd = .Single d') ∧
    (∀ f : NaiveDate → Option NaiveDate,
      (f d.naive_local = none → map_local fo d f = none) ∧
      (∀ nd, f d.naive_local = some nd →
        ((fo d.offset).from_local_date nd = .None ∨
          ∃ a b, (fo d.offset).from_local_date nd = .Ambiguous a b) →
        map_local fo d f = none)) := by
  refine ⟨map_local_eq_some_iff fo d _ d', map_local_eq_some_iff fo d _ d',
    map_local_eq_some_iff fo d _ d', map_local_eq_some_iff fo d _ d',
    map_local_eq_some_iff fo d _ d', map_local_eq_some_iff fo d _ d',
    map_local_eq_some_iff fo d _ d', ?_⟩
  intro f
  constructor
  · intro h
    simp [map_local, h]
  · intro nd hnd hres
    simp only [map_local, Date.timezone, hnd, Option.some_bind]
    rcases hres with h | ⟨a, b, h⟩ <;> simp [h, LocalResult.single]

/-- C7 witness: under the gap-and-fold fixture, mutating the zoned date with
UTC day 5 (local day 5) onto local day 1 — a fold, resolved `Ambiguous` —
yields no value. -/
theorem with_field_single_only_witness :
    map_local GapFoldZone.from_offset (⟨5, 0⟩ : Date Int)
      (fun _ => some 1) = none :=
  ((with_field_single_only GapFoldZone.from_offset
      (fun _ _ => Option.none) (fun _ _ => Option.none) (fun _ _ => Option.none)
      (fun _ _ => Option.none) (fun _ _ => Option.none) (fun _ _ => Option.none)
      (fun _ _ => Option.none) (⟨5, 0⟩ : Date Int) 0 0
      (⟨0, 0⟩ : Date Int)).2.2.2.2.2.2.2 (fun _ => some 1)).2 1 rfl
    (Or.inr ⟨⟨1, 0⟩, ⟨1, 0⟩, by decide⟩)

/-- `Date::and_time` succeeds exactly when the reconstructed backend
resolves the combined local date-time as `Single`. -/
theorem date_and_time_eq_some_iff {α : Type} [OffsetState α]
    (fo : α → TimeZone α) (nt : NaiveDate → NaiveTime → NaiveDateTime)
    (d : Date α) (time : NaiveTime) (dt : DateTime α) :
    d.and_time fo nt time = some dt ↔
      (fo d.offset).from_local_datetime (nt d.naive_local time) =
        .Single dt := by
  simp [Date.and_time, Date.timezone, single_eq_some_iff]

/-- `Date::and_hms_opt` succeeds exactly when the time fields validate and
the backend resolves the combined local date-time as `Single`. -/
theorem date_and_hms_opt_eq_some_iff {α : Type} [OffsetState α]
    (fo : α → TimeZone α) (nt : NaiveDate → NaiveTime → NaiveDateTime)
    (v3 : Nat → Nat → Nat → Option NaiveTime)
    (d : Date α) (h m s : Nat) (dt : DateTime α) :
    d.and_hms_opt fo nt v3 h m s = some dt ↔
      ∃ t, v3 h m s = some t ∧
        (fo d.offset).from_local_datetime (nt d.naive_local t) =
          .Single dt := by
  simp [Date.and_hms_opt, Option.bind_eq_some, date_and_time_eq_some_iff]

/-- `Date::and_hms_milli_opt` succeeds exactly when the time fields validate
and the backend resolves the combined local date-time as `Single`. -/
theorem date_and_hms_milli_opt_eq_some_iff {α : Type} [OffsetState α]
    (fo : α → TimeZone α) (nt : NaiveDate → NaiveTime → NaiveDateTime)
    (v4 : Nat → Nat → Nat → Nat → Option NaiveTime)
    (d : Date α) (h m s x : Nat) (dt : DateTime α) :
    d.and_hms_milli_opt fo nt v4 h m s x = some dt ↔
      ∃ t, v4 h m s x = some t ∧
        (fo d.offset).from_local_datetime (nt d.naive_local t) =
          .Single dt := by
  simp [Date.and_hms_milli_opt, Option.bind_eq_some, date_and_time_eq_some_iff]

/-- `Date::and_hms_micro_opt` succeeds exactly when the time fields validate
and the backend resolves the combined local date-time as `Single`. -/
theorem date_and_hms_micro_opt_eq_some_iff {α : Type} [OffsetState α]
    (fo : α → TimeZone α) (nt : NaiveDate → NaiveTime → NaiveDateTime)
    (v4 : Nat → Nat → Nat → Nat → Option NaiveTime)
    (d : Date α) (h m s x : Nat) (dt : DateTime α) :
    d.and_hms_micro_opt fo nt v4 h m s x = some dt ↔
      ∃ t, v4 h m s x = some t ∧
        (fo d.offset).from_local_datetime (nt d.naive_local t) =
          .Single dt := by
  simp [Date.and_hms_micro_opt, Option.bind_eq_some, date_and_time_eq_some_iff]

/-- `Date::and_hms_nano_opt` succeeds exactly when the time fields validate
and the backend resolves the combined local date-time as `Single`. -/
theorem date_and_hms_nano_opt_eq_some_iff {α : Type} [OffsetState α]
    (fo : α → TimeZone α) (nt : NaiveDate → NaiveTime → NaiveDateTime)
    (v4 : Nat → Nat → Nat → Nat → Option NaiveTime)
    (d : Date α) (h m s x : Nat) (dt : DateTime α) :
    d.and_hms_nano_opt fo nt v4 h m s x = some dt ↔
      ∃ t, v4 h m s x = some t ∧
        (fo d.offset).from_local_datetime (nt d.naive_local t) =
          .Single dt := by
  simp [Date.and_hms_nano_opt, Option.bind_eq_some, date_and_time_eq_some_iff]

/-- C3: the chaining combinators on a conversion outcome of a zoned date
collapse everything but the doubly-unique path: a `None`/`Ambiguous` outer
outcome gives `None` (first conjunct); a `Single` result arises exactly when
the outer outcome is `Single` and the inner date-plus-time combination
validates and resolves as `Single` under the backend (second conjunct); and
the result is never `Ambiguous` (third conjunct). -/
theorem and_combinators_collapse {α : Type} [OffsetState α]
    (fo : α → TimeZone α)
    (nt : NaiveDate → NaiveTime → NaiveDateTime)
    (v3 : Nat → Nat → Nat → Option NaiveTime)
    (vmilli vmicro vnano : Nat → Nat → Nat → Nat → Option NaiveTime)
    (lr : LocalResult (Date α)) (time : NaiveTime) (h m s x : Nat) :
    ((∀ d : Date α, lr ≠ .Single d) →
      lr.and_time fo nt time = .None ∧
      lr.and_hms_opt fo nt v3 h m s = .None ∧
      lr.and_hms_milli_opt fo nt vmilli h m s x = .None ∧
      lr.and_hms_micro_opt fo nt vmicro h m s x = .None ∧
      lr.and_hms_nano_opt fo nt vnano h m s x = .None) ∧
    (∀ dt : DateTime α,
      (lr.and_time fo nt time = .Single dt ↔
        ∃ d, lr = .Single d ∧
          (fo d.offset).from_local_datetime (nt d.naive_local time) =
            .Single dt) ∧
      (lr.and_hms_opt fo nt v3 h m s = .Single dt ↔
        ∃ d t, lr = .Single d ∧ v3 h m s = some t ∧
          (fo d.offset).from_local_datetime (nt d.naive_local t) =
            .Single dt) ∧
      (lr.and_hms_milli_opt fo nt vmilli h m s x = .Single dt ↔
        ∃ d t, lr = .Single d ∧ vmilli h m s x = some t ∧
          (fo d.offset).from_local_datetime (nt d.naive_local t) =
            .Single dt) ∧
      (lr.and_hms_micro_opt fo nt vmicro h m s x = .Single dt ↔
        ∃ d t, lr = .Single d ∧ vmicro h m s x = some t ∧
          (fo d.offset).from_local_datetime (nt d.naive_local t) =
            .Single dt) ∧
      (lr.and_hms_nano_opt fo nt vnano h m s x = .Single dt ↔
        ∃ d t, lr = .Single d ∧ vnano h m s x = some t ∧
          (fo d.offset).from_local_datetime (nt d.naive_local t) =
            .Single dt)) ∧
    (∀ dt1 dt2 : DateTime α,
      lr.and_time fo nt time ≠ .Ambiguous dt1 dt2 ∧
      lr.and_hms_opt fo nt v3 h m s ≠ .Ambiguous dt1 dt2 ∧
      lr.and_hms_milli_opt fo nt vmilli h m s x ≠ .Ambiguous dt1 dt2 ∧
      lr.and_hms_micro_opt fo nt vmicro h m s x ≠ .Ambiguous dt1 dt2 ∧
      lr.and_hms_nano_opt fo nt vnano h m s x ≠ .Ambiguous dt1 dt2) := by
  refine ⟨?_, ?_, ?_⟩
  · intro hns
    cases lr with
    | Single d => exact absurd rfl (hns d)
    | None => exact ⟨rfl, rfl, rfl, rfl, rfl⟩
    | Ambiguous a b => exact ⟨rfl, rfl, rfl, rfl, rfl⟩
  · intro dt
    cases lr with
    | None =>
      simp [LocalResult.and_time, LocalResult.and_hms_opt,
        LocalResult.and_hms_milli_opt, LocalResult.and_hms_micro_opt,
        LocalResult.and_hms_nano_opt]
    | Ambiguous a b =>
      simp [LocalResult.and_time, LocalResult.and_hms_opt,
        LocalResult.and_hms_milli_opt, LocalResult.and_hms_micro_opt,
        LocalResult.and_hms_nano_opt]
    | Single d =>
      refine ⟨?_, ?_, ?_, ?_, ?_⟩
      · cases hv : d.and_time fo nt time with
        | none =>
          simp only [LocalResult.and_time, hv]
          constructor
          · intro h'; cases h'
          · rintro ⟨d', hd', hres⟩
            cases hd'
            have : d.and_time fo nt time = some dt :=
              (date_and_time_eq_some_iff fo nt d time dt).2 hres
            rw [hv] at this
            cases this
        | some dtv =>
          simp only [LocalResult.and_time, hv]
          rw [date_and_time_eq_some_iff] at hv
          constructor
          · rintro h'
            cases h'
            exact ⟨d, rfl, hv⟩
          · rintro ⟨d', hd', hres⟩
            cases hd'
            rw [hres] at hv
            cases hv
            rfl
      · cases hv : d.and_hms_opt fo nt v3 h m s with
        | none =>
          simp only [LocalResult.and_hms_opt, hv]
          constructor
          · intro h'; cases h'
          · rintro ⟨d', t, hd', hvt, hres⟩
            cases hd'
            have : d.and_hms_opt fo nt v3 h m s = some dt :=
              (date_and_hms_opt_eq_some_iff fo nt v3 d h m s dt).2
                ⟨t, hvt, hres⟩
            rw [hv] at this
            cases this
        | some dtv =>
          simp only [LocalResult.and_hms_opt, hv]
          rw [date_and_hms_opt_eq_some_iff] at hv
          obtain ⟨t, hvt, hres⟩ := hv
          constructor
          · rintro h'
            cases h'
            exact ⟨d, t, rfl, hvt, hres⟩
          · rintro ⟨d', t', hd', hvt', hres'⟩
            cases hd'
            rw [hvt'] at hvt
            cases hvt
            rw [hres'] at hres
            cases hres
            rfl
      · cases hv : d.and_hms_milli_opt fo nt vmilli h m s x with
        | none =>
          simp only [LocalResult.and_hms_milli_opt, hv]
          constructor
          · intro h'; cases h'
          · rintro ⟨d', t, hd', hvt, hres⟩
            cases hd'
            have : d.and_hms_milli_opt fo nt vmilli h m s x = some dt :=
              (date_and_hms_milli_opt_eq_some_iff fo nt vmilli d h m s x
                dt).2 ⟨t, hvt, hres⟩
            rw [hv] at this
            cases this
        | some dtv =>
          simp only [LocalResult.and_hms_milli_opt, hv]
          rw [date_and_hms_milli_opt_eq_some_iff] at hv
          obtain ⟨t, hvt, hres⟩ := hv
          constructor
          · rintro h'
            cases h'
            exact ⟨d, t, rfl, hvt, hres⟩
          · rintro ⟨d', t', hd', hvt', hres'⟩
            cases hd'
            rw [hvt'] at hvt
            cases hvt
            rw [hres'] at hres
            cases hres
            rfl
      · cases hv : d.and_hms_micro_opt fo nt vmicro h m s x with
        | none =>
          simp only [LocalResult.and_hms_micro_opt, hv]
          constructor
          · intro h'; cases h'
          · rintro ⟨d', t, hd', hvt, hres⟩
            cases hd'
            have : d.and_hms_micro_opt fo nt vmicro h m s x = some dt :=
              (date_and_hms_micro_opt_eq_some_iff fo nt vmicro d h m s x
                dt).2 ⟨t, hvt, hres⟩
            rw [hv] at this
            cases this
        | some dtv =>
          simp only [LocalResult.and_hms_micro_opt, hv]
          rw [date_and_hms_micro_opt_eq_some_iff] at hv
          obtain ⟨t, hvt, hres⟩ := hv
          constructor
          · rintro h'
            cases h'
            exact ⟨d, t, rfl, hvt, hres⟩
          · rintro ⟨d', t', hd', hvt', hres'⟩
            cases hd'
            rw [hvt'] at hvt
            cases hvt
            rw [hres'] at hres
            cases hres
            rfl
      · cases hv : d.and_hms_nano_opt fo nt vnano h m s x with
        | none =>
          simp only [LocalResult.and_hms_nano_opt, hv]
          constructor
          · intro h'; cases h'
          · rintro ⟨d', t, hd', hvt, hres⟩
            cases hd'
            have : d.and_hms_nano_opt fo nt vnano h m s x = some dt :=
              (date_and_hms_nano_opt_eq_some_iff fo nt vnano d h m s x
                dt).2 ⟨t, hvt, hres⟩
            rw [hv] at this
            cases this
        | some dtv =>
          simp only [LocalResult.and_hms_nano_opt, hv]
          rw [date_and_hms_nano_opt_eq_some_iff] at hv
          obtain ⟨t, hvt, hres⟩ := hv
          constructor
          · rintro h'
            cases h'
            exact ⟨d, t, rfl, hvt, hres⟩
          · rintro ⟨d', t', hd', hvt', hres'⟩
            cases hd'
            rw [hvt'] at hvt
            cases hvt
            rw [hres'] at hres
            cases hres
            rfl
  · intro dt1 dt2
    cases lr with
    | None =>
      simp [LocalResult.and_time, LocalResult.and_hms_opt,
        LocalResult.and_hms_milli_opt, LocalResult.and_hms_micro_opt,
        LocalResult.and_hms_nano_opt]
    | Ambiguous a b =>
      simp [LocalResult.and_time, LocalResult.and_hms_opt,
        LocalResult.and_hms_milli_opt, LocalResult.and_hms_micro_opt,
        LocalResult.and_hms_nano_opt]
    | Single d =>
      refine ⟨?_, ?_, ?_, ?_, ?_⟩
      · cases hv : d.and_time fo nt time <;>
          simp [LocalResult.and_time, hv]
      · cases hv : d.and_hms_opt fo nt v3 h m s <;>
          simp [LocalResult.and_hms_opt, hv]
      · cases hv : d.and_hms_milli_opt fo nt vmilli h m s x <;>
          simp [LocalResult.and_hms_milli_opt, hv]
      · cases hv : d.and_hms_micro_opt fo nt vmicro h m s x <;>
          simp [LocalResult.and_hms_micro_opt, hv]
      · cases hv : d.and_hms_nano_opt fo nt vnano h m s x <;>
          simp [LocalResult.and_hms_nano_opt, hv]

/-- C3 witness: an `Ambiguous` outer outcome (the fold at local day 1 of
the gap-and-fold fixture) collapses to `None` under all five chaining
combinators. -/
theorem and_combinators_collapse_witness :
    ((LocalResult.Ambiguous (⟨1, 0⟩ : Date Int) ⟨1, 0⟩).and_time
      GapFoldZone.from_offset (fun d t => d + t) 0 = .None) ∧
    ((LocalResult.Ambiguous (⟨1, 0⟩ : Date Int) ⟨1, 0⟩).and_hms_opt
      GapFoldZone.from_offset (fun d t => d + t)
      (fun _ _ _ => some 0) 1 2 3 = .None) ∧
    ((LocalResult.Ambiguous (⟨1, 0⟩ : Date Int) ⟨1, 0⟩).and_hms_milli_opt
      GapFoldZone.from_offset (fun d t => d + t)
      (fun _ _ _ _ => some 0) 1 2 3 4 = .None) ∧
    ((LocalResult.Ambiguous (⟨1, 0⟩ : Date Int) ⟨1, 0⟩).and_hms_micro_opt
      GapFoldZone.from_offset (fun d t => d + t)
      (fun _ _ _ _ => some 0) 1 2 3 4 = .None) ∧
    ((LocalResult.Ambiguous (⟨1, 0⟩ : Date Int) ⟨1, 0⟩).and_hms_nano_opt
      GapFoldZone.from_offset (fun d t => d + t)
      (fun _ _ _ _ => some 0) 1 2 3 4 = .None) :=
  (and_combinators_collapse GapFoldZone.from_offset (fun d t => d + t)
      (fun _ _ _ => some 0) (fun _ _ _ _ => some 0) (fun _ _ _ _ => some 0)
      (fun _ _ _ _ => some 0)
      (LocalResult.Ambiguous (⟨1, 0⟩ : Date Int) ⟨1, 0⟩) 0 1 2 3 4).1
    (fun _ h' => LocalResult.noConfusion h')

/-- C4: every checked calendar-field and time-of-field constructor first
validates through the naive engine and returns `None` when that fails;
otherwise it returns exactly the backend's local resolution of the
validated naive value; and an `Ambiguous` result can only originate in the
backend's `state_from_local_*` resolution. -/
theorem opt_constructors_two_layer {α : Type} [OffsetState α]
    (tz : TimeZone α)
    (fymd : Int → Nat → Nat → Option NaiveDate)
    (fyo : Int → Nat → Option NaiveDate)
    (fiso : Int → Nat → Weekday → Option NaiveDate)
    (fhms : Nat → Nat → Nat → Option NaiveTime)
    (fmil fmic fnan : Nat → Nat → Nat → Nat → Option NaiveTime)
    (y : Int) (mo dy w ord h mi s sub : Nat) (wd : Weekday) :
    ((fymd y mo dy = none → tz.ymd_opt fymd y mo dy = .None) ∧
     (∀ nd, fymd y mo dy = some nd →
       tz.ymd_opt fymd y mo dy = tz.from_local_date nd) ∧
     (∀ r1 r2, tz.ymd_opt fymd y mo dy = .Ambiguous r1 r2 →
       ∃ nd s1 s2, fymd y mo dy = some nd ∧
         tz.state_from_local_date nd = .Ambiguous s1 s2)) ∧
    ((fyo y ord = none → tz.yo_opt fyo y ord = .None) ∧
     (∀ nd, fyo y ord = some nd →
       tz.yo_opt fyo y ord = tz.from_local_date nd) ∧
     (∀ r1 r2, tz.yo_opt fyo y ord = .Ambiguous r1 r2 →
       ∃ nd s1 s2, fyo y ord = some nd ∧
         tz.state_from_local_date nd = .Ambiguous s1 s2)) ∧
    ((fiso y w wd = none → tz.isoywd_opt fiso y w wd = .None) ∧
     (∀ nd, fiso y w wd = some nd →
       tz.isoywd_opt fiso y w wd = tz.from_local_date nd) ∧
     (∀ r1 r2, tz.isoywd_opt fiso y w wd = .Ambiguous r1 r2 →
       ∃ nd s1 s2, fiso y w wd = some nd ∧
         tz.state_from_local_date nd = .Ambiguous s1 s2)) ∧
    ((fhms h mi s = none → tz.hms_opt fhms h mi s = .None) ∧
     (∀ nt, fhms h mi s = some nt →
       tz.hms_opt fhms h mi s = tz.from_local_time nt) ∧
     (∀ r1 r2, tz.hms_opt fhms h mi s = .Ambiguous r1 r2 →
       ∃ nt s1 s2, fhms h mi s = some nt ∧
         tz.state_from_local_time nt = .Ambiguous s1 s2)) ∧
    ((fmil h mi s sub = none → tz.hms_milli_opt fmil h mi s sub = .None) ∧
     (∀ nt, fmil h mi s sub = some nt →
       tz.hms_milli_opt fmil h mi s sub = tz.from_local_time nt) ∧
     (∀ r1 r2, tz.hms_milli_opt fmil h mi s sub = .Ambiguous r1 r2 →
       ∃ nt s1 s2, fmil h mi s sub = some nt ∧
         tz.state_from_local_time nt = .Ambiguous s1 s2)) ∧
    ((fmic h mi s sub = none → tz.hms_micro_opt fmic h mi s sub = .None) ∧
     (∀ nt, fmic h mi s sub = some nt →
       tz.hms_micro_opt fmic h mi s sub = tz.from_local_time nt) ∧
     (∀ r1 r2, tz.hms_micro_opt fmic h mi s sub = .Ambiguous r1 r2 →
       ∃ nt s1 s2, fmic h mi s sub = some nt ∧
         tz.state_from_local_time nt = .Ambiguous s1 s2)) ∧
    ((fnan h mi s sub = none → tz.hms_nano_opt fnan h mi s sub = .None) ∧
     (∀ nt, fnan h mi s sub = some nt →
       tz.hms_nano_opt fnan h mi s sub = tz.from_local_time nt) ∧
     (∀ r1 r2, tz.hms_nano_opt fnan h mi s sub = .Ambiguous r1 r2 →
       ∃ nt s1 s2, fnan h mi s sub = some nt ∧
         tz.state_from_local_time nt = .Ambiguous s1 s2)) := by
  refine ⟨⟨?_, ?_, ?_⟩, ⟨?_, ?_, ?_⟩, ⟨?_, ?_, ?_⟩, ⟨?_, ?_, ?_⟩,
    ⟨?_, ?_, ?_⟩, ⟨?_, ?_, ?_⟩, ⟨?_, ?_, ?_⟩⟩
  · intro hv; simp [TimeZone.ymd_opt, hv]
  · intro nd hv; simp [TimeZone.ymd_opt, hv]
  · intro r1 r2 hamb
    cases hv : fymd y mo dy with
    | none => simp [TimeZone.ymd_opt, hv] at hamb
    | some nd =>
      simp only [TimeZone.ymd_opt, hv] at hamb
      obtain ⟨s1, s2, hs⟩ := from_local_date_ambiguous_state tz nd r1 r2 hamb
      exact ⟨nd, s1, s2, rfl, hs⟩
  · intro hv; simp [TimeZone.yo_opt, hv]
  · intro nd hv; simp [TimeZone.yo_opt, hv]
  · intro r1 r2 hamb
    cases hv : fyo y ord with
    | none => simp [TimeZone.yo_opt, hv] at hamb
    | some nd =>
      simp only [TimeZone.yo_opt, hv] at hamb
      obtain ⟨s1, s2, hs⟩ := from_local_date_ambiguous_state tz nd r1 r2 hamb
      exact ⟨nd, s1, s2, rfl, hs⟩
  · intro hv; simp [TimeZone.isoywd_opt, hv]
  · intro nd hv; simp [TimeZone.isoywd_opt, hv]
  · intro r1 r2 hamb
    cases hv : fiso y w wd with
    | none => simp [TimeZone.isoywd_opt, hv] at hamb
    | some nd =>
      simp only [TimeZone.isoywd_opt, hv] at hamb
      obtain ⟨s1, s2, hs⟩ := from_local_date_ambiguous_state tz nd r1 r2 hamb
      exact ⟨nd, s1, s2, rfl, hs⟩
  · intro hv; simp [TimeZone.hms_opt, hv]
  · intro nt hv; simp [TimeZone.hms_opt, hv]
  · intro r1 r2 hamb
    cases hv : fhms h mi s with
    | none => simp [TimeZone.hms_opt, hv] at hamb
    | some nt =>
      simp only [TimeZone.hms_opt, hv] at hamb
      obtain ⟨s1, s2, hs⟩ := from_local_time_ambiguous_state tz nt r1 r2 hamb
      exact ⟨nt, s1, s2, rfl, hs⟩
  · intro hv; simp [TimeZone.hms_milli_opt, hv]
  · intro nt hv; simp [TimeZone.hms_milli_opt, hv]
  · intro r1 r2 hamb
    cases hv : fmil h mi s sub with
    | none => simp [TimeZone.hms_milli_opt, hv] at hamb
    | some nt =>
      simp only [TimeZone.hms_milli_opt, hv] at hamb
      obtain ⟨s1, s2, hs⟩ := from_local_time_ambiguous_state tz nt r1 r2 hamb
      exact ⟨nt, s1, s2, rfl, hs⟩
  · intro hv; simp [TimeZone.hms_micro_opt, hv]
  · intro nt hv; simp [TimeZone.hms_micro_opt, hv]
  · intro r1 r2 hamb
    cases hv : fmic h mi s sub with
    | none => simp [TimeZone.hms_micro_opt, hv] at hamb
    | some nt =>
      simp only [TimeZone.hms_micro_opt, hv] at hamb
      obtain ⟨s1, s2, hs⟩ := from_local_time_ambiguous_state tz nt r1 r2 hamb
      exact ⟨nt, s1, s2, rfl, hs⟩
  · intro hv; simp [TimeZone.hms_nano_opt, hv]
  · intro nt hv; simp [TimeZone.hms_nano_opt, hv]
  · intro r1 r2 hamb
    cases hv : fnan h mi s sub with
    | none => simp [TimeZone.hms_nano_opt, hv] at hamb
    | some nt =>
      simp only [TimeZone.hms_nano_opt, hv] at hamb
      obtain ⟨s1, s2, hs⟩ := from_local_time_ambiguous_state tz nt r1 r2 hamb
      exact ⟨nt, s1, s2, rfl, hs⟩

/-- C4 witness: on the `UTC1y` fixture, a validator that rejects its fields
(a calendar-invalid combination such as day 30 of February) makes `ymd_opt`
return `None`, and a validator that accepts yields exactly the backend's
`from_local_date` outcome. -/
theorem opt_constructors_two_layer_witness :
    (UTC1y.ymd_opt (fun _ _ _ => Option.none) 2012 2 30 = .None) ∧
    (UTC1y.ymd_opt (fun _ _ _ => some 7) 2012 2 29 =
      UTC1y.from_local_date 7) := by
  constructor
  · exact (opt_constructors_two_layer UTC1y (fun _ _ _ => Option.none)
      (fun _ _ => Option.none) (fun _ _ _ => Option.none)
      (fun _ _ _ => Option.none) (fun _ _ _ _ => Option.none)
      (fun _ _ _ _ => Option.none) (fun _ _ _ _ => Option.none)
      2012 2 30 1 1 0 0 0 0 Weekday.mon).1.1 rfl
  · exact (opt_constructors_two_layer UTC1y (fun _ _ _ => some 7)
      (fun _ _ => Option.none) (fun _ _ _ => Option.none)
      (fun _ _ _ => Option.none) (fun _ _ _ _ => Option.none)
      (fun _ _ _ _ => Option.none) (fun _ _ _ _ => Option.none)
      2012 2 29 1 1 0 0 0 0 Weekday.mon).1.2.1 7 rfl

end Chrono
